import Mathlib

/-!
Verification development for the emotion-music recommendation engine.

A shallow embedding of the recommendation core in Lean 4:

* `src/src/recommender/music.py` — artist-name normalisation, alias
  resolution, Levenshtein distance, fuzzy matching, the catalog filter
  cascade and the ranking/deduplication loop of `MusicRecommender.recommend`;
* `src/src/intent/extractor.py` — keyword-table intent extraction;
* `src/src/track_validator.py` — script-ratio language detection and track
  validation;
* `src/src/pipeline.py` — the `process_audio` orchestrator.

Modelling conventions:

* Python floats are modelled by `ℚ`; the float literals involved
  (0.5, 0.8, 0.7, the feature weights) are exactly representable, and the
  claims under study never hinge on float rounding.
* Python `None` / missing dict keys are modelled by `Option`.
* Fallible Python stages (anything that can raise) are modelled in
  `Except String`; stages that catch all exceptions internally
  (the GigaChat service, the Spotify client, the audio processor)
  are modelled as total functions supplied by an `Env` record.
* `str.lower` is modelled for ASCII and Cyrillic (the scripts occurring in
  this code base); other characters are left unchanged.
* Catalog cells for the artist column are modelled as plain strings, so the
  Python branches guarded by `raw_str.startswith("[")` (list-encoded cells)
  are the identity in the model and are omitted.
* `pandas.DataFrame.nsmallest(n, col)` (default `keep="first"`) returns the
  rows in ascending `col` order, ties broken by original position; it is
  modelled as a stable insertion sort by the key followed by `List.take n`.
-/

/- Batteries seals the `Rat` arithmetic behind `@[irreducible]`; the
concrete witnesses below evaluate rational arithmetic with `decide`, which
needs these definitions reducible again. -/
unseal Rat.add Rat.mul Rat.inv Rat.sub Rat.ofScientific

namespace EmotionMusic

/-! ### Character and string helpers (Python semantics) -/

/-- Lower-case Cyrillic letter test, pattern `[а-я]` plus `ё`. -/
def isCyrLower (c : Char) : Bool :=
  ('а' ≤ c && c ≤ 'я') || c == 'ё'

/-- Upper-case Cyrillic letter test, pattern `[А-Я]` plus `Ё`. -/
def isCyrUpper (c : Char) : Bool :=
  ('А' ≤ c && c ≤ 'Я') || c == 'Ё'

/-- Cyrillic letter, the Python regex class `[а-яА-ЯёЁ]`. -/
def isCyr (c : Char) : Bool := isCyrLower c || isCyrUpper c

/-- Latin letter, the Python regex class `[a-zA-Z]`. -/
def isLat (c : Char) : Bool :=
  ('a' ≤ c && c ≤ 'z') || ('A' ≤ c && c ≤ 'Z')

/-- ASCII digit. -/
def isDigitChar (c : Char) : Bool := '0' ≤ c && c ≤ '9'

/-- Python `str.lower()` on one character, for ASCII and Cyrillic
(uppercase Cyrillic А..Я is 0x20 below its lowercase form, Ё maps to ё). -/
def pyLowerChar (c : Char) : Char :=
  if 'A' ≤ c && c ≤ 'Z' then Char.ofNat (c.toNat + 32)
  else if 'А' ≤ c && c ≤ 'Я' then Char.ofNat (c.toNat + 32)
  else if c == 'Ё' then 'ё'
  else c

/-- Python `str.lower()` on a string (ASCII + Cyrillic). -/
def pyLower (s : String) : String := String.mk (s.toList.map pyLowerChar)

/-- Whitespace stripped by Python `str.strip()`. -/
def isPySpace (c : Char) : Bool :=
  c == ' ' || c == '\t' || c == '\n' || c == '\r' ||
  c == Char.ofNat 11 || c == Char.ofNat 12

/-- Python `str.strip()`: drop surrounding whitespace. -/
def pyStrip (s : String) : String :=
  String.mk (((s.toList.dropWhile isPySpace).reverse.dropWhile isPySpace).reverse)

/-- Python `int(...)` on a short digit string (an optional sign followed by
digits); `none` models the `ValueError` branch. -/
def pyParseInt (s : String) : Option Int :=
  let l := s.toList
  let (sign, digits) : Int × List Char :=
    match l with
    | '-' :: rest => (-1, rest)
    | '+' :: rest => (1, rest)
    | _ => (1, l)
  if digits.isEmpty || !digits.all isDigitChar then none
  else some (sign * (digits.foldl (fun acc c => acc * 10 + (c.toNat - '0'.toNat)) 0 : Nat))

/-- `needle` occurs at the head of `hay` (`str.startswith`). -/
def startsWithL : List Char → List Char → Bool
  | _, [] => true
  | [], _ :: _ => false
  | c :: cs, d :: ds => c == d && startsWithL cs ds

/-- `needle` occurs somewhere inside `hay` (Python `needle in hay`). -/
def containsSub (needle : List Char) : List Char → Bool
  | [] => startsWithL [] needle
  | c :: cs => startsWithL (c :: cs) needle || containsSub needle cs

/-- String form of `containsSub`:  Python `needle in hay`. -/
def strContains (hay needle : String) : Bool :=
  containsSub needle.toList hay.toList

/-- One left-to-right non-overlapping replacement pass, fuel-bounded
(the fuel is an upper bound on the number of characters consumed, so
`replaceAllGo (s.length + 1) s old new` is total Python `str.replace`). -/
def replaceAllGo : Nat → List Char → List Char → List Char → List Char
  | 0, s, _, _ => s
  | _ + 1, [], _, _ => []
  | fuel + 1, c :: cs, old, new =>
    if old ≠ [] && startsWithL (c :: cs) old then
      new ++ replaceAllGo fuel ((c :: cs).drop old.length) old new
    else
      c :: replaceAllGo fuel cs old new

/-- Python `s.replace(old, new)` (left-to-right, non-overlapping). -/
def pyReplace (s old new : String) : String :=
  String.mk (replaceAllGo (s.toList.length + 1) s.toList old.toList new.toList)

/-! ### `src/recommender/music.py`: artist-name normalisation -/

/-- Characters removed by `re.sub(r'[\.\-\s\'\"\,]+', '', name)`. -/
def isStripChar (c : Char) : Bool :=
  c == '.' || c == '-' || c == ' ' || c == '\t' || c == '\n' || c == '\r' ||
  c == '\'' || c == '"' || c == ','

/-- The fixed Cyrillic→Latin transliteration table of
`normalize_artist_name` (characters absent from the table are kept). -/
def translitChar (c : Char) : List Char :=
  if c == 'а' then ['a'] else if c == 'б' then ['b']
  else if c == 'в' then ['v'] else if c == 'г' then ['g']
  else if c == 'д' then ['d'] else if c == 'е' then ['e']
  else if c == 'ё' then ['e'] else if c == 'ж' then ['z', 'h']
  else if c == 'з' then ['z'] else if c == 'и' then ['i']
  else if c == 'й' then ['y'] else if c == 'к' then ['k']
  else if c == 'л' then ['l'] else if c == 'м' then ['m']
  else if c == 'н' then ['n'] else if c == 'о' then ['o']
  else if c == 'п' then ['p'] else if c == 'р' then ['r']
  else if c == 'с' then ['s'] else if c == 'т' then ['t']
  else if c == 'у' then ['u'] else if c == 'ф' then ['f']
  else if c == 'х' then ['h'] else if c == 'ц' then ['t', 's']
  else if c == 'ч' then ['c', 'h'] else if c == 'ш' then ['s', 'h']
  else if c == 'щ' then ['s', 'c', 'h'] else if c == 'ъ' then []
  else if c == 'ы' then ['y'] else if c == 'ь' then []
  else if c == 'э' then ['e'] else if c == 'ю' then ['y', 'u']
  else if c == 'я' then ['y', 'a']
  else [c]

/-- The doubled-letter / digraph collapses of `normalize_artist_name`,
applied in the source's dict order. -/
def digraphRules : List (String × String) :=
  [("oo", "u"), ("uu", "u"), ("ii", "i"), ("ee", "e"), ("aa", "a"),
   ("dj", "j"), ("dzh", "j")]

/-- `normalize_artist_name` from `src/recommender/music.py`: lowercase and
strip, delete punctuation/whitespace, transliterate Cyrillic, collapse
digraph variants. -/
def normalize_artist_name (name : String) : String :=
  if name == "" then ""
  else
    let n := pyStrip (pyLower name)
    let n := String.mk (n.toList.filter (fun c => !isStripChar c))
    let n := String.mk (n.toList.flatMap translitChar)
    digraphRules.foldl (fun acc p => pyReplace acc p.1 p.2) n

/-! ### Levenshtein distance (the source's row DP) -/

/-- Inner loop of the Levenshtein DP: builds the tail of `current_row`.
`prevRow` starts as the full previous row (length `s2.length + 1`),
`left` is the last entry already appended to the current row. -/
def levInner (c1 : Char) : List Char → List Nat → Nat → List Nat
  | [], _, _ => []
  | c2 :: s2, p0 :: p1 :: ps, left =>
    let cost := min (p1 + 1) (min (left + 1) (p0 + (if c1 == c2 then 0 else 1)))
    cost :: levInner c1 s2 (p1 :: ps) cost
  | _ :: _, _, _ => []

/-- Outer loop of the Levenshtein DP over the characters of `s1`. -/
def levOuter (s2 : List Char) : List Char → Nat → List Nat → List Nat
  | [], _, prev => prev
  | c1 :: s1, i, prev =>
    levOuter s2 s1 (i + 1) ((i + 1) :: levInner c1 s2 prev (i + 1))

/-- The DP core: `previous_row[-1]` after consuming all of `s1`. -/
def levDP (s1 s2 : List Char) : Nat :=
  (levOuter s2 s1 0 (List.range (s2.length + 1))).getLastD 0

/-- `levenshtein_distance` from `src/recommender/music.py` (the argument
swap and the empty-string early return are mirrored). -/
def levenshtein_distance (s1 s2 : String) : Nat :=
  let l1 := s1.toList
  let l2 := s2.toList
  if l1.length < l2.length then
    if l1.length == 0 then l2.length else levDP l2 l1
  else
    if l2.length == 0 then l1.length else levDP l1 l2

/-- `fuzzy_artist_match` with the default threshold 0.7: normalised
equality, either-way containment, or normalised similarity ≥ 0.7. -/
def fuzzy_artist_match (query candidate : String) : Bool :=
  let q_norm := normalize_artist_name query
  let c_norm := normalize_artist_name candidate
  if q_norm == "" || c_norm == "" then false
  else if q_norm == c_norm then true
  else if strContains c_norm q_norm || strContains q_norm c_norm then true
  else
    let max_len := max q_norm.length c_norm.length
    if max_len == 0 then false
    else
      decide ((7 : ℚ) / 10 ≤ 1 - (levenshtein_distance q_norm c_norm : ℚ) / (max_len : ℚ))

/-- The static `ARTIST_ALIASES` table, in source order. -/
def ARTIST_ALIASES : List (String × List String) :=
  [("monetochka", ["монеточка", "мониточка", "монетка", "monetka", "monetochka"]),
   ("og buda", ["og buda", "og booda", "огбуда", "оджибуда", "о.г.буда", "ogbuda"]),
   ("scriptonit", ["скриптонит", "скрипт", "scriptonite", "скриптонайт"]),
   ("oxxxymiron", ["оксимирон", "окси", "oxxxy", "oxymiron", "оксимир"]),
   ("face", ["фейс", "фэйс"]),
   ("morgenshtern", ["моргенштерн", "морген", "morgenstern"]),
   ("kizaru", ["кизару", "kizary"]),
   ("pharaoh", ["фараон", "фараох", "faraon"]),
   ("lsp", ["лсп", "l.s.p"]),
   ("miyagi", ["мияги", "miyagi"]),
   ("bumble beezy", ["бамбл бизи", "bumble", "бамблби"]),
   ("big baby tape", ["биг бейби тейп", "bbt", "bigbabytape"]),
   ("bushido zho", ["бушидо жо", "bushido"]),
   ("mayot", ["майот", "mayot"]),
   ("seemee", ["сими", "simi", "seemee"]),
   ("104", ["104", "сто четыре"]),
   ("obladaet", ["обладает", "obladaet"]),
   ("markul", ["маркул", "markul"]),
   ("feduk", ["федук", "feduk"]),
   ("gone.fludd", ["гон флад", "гонфлад", "gone fludd", "gonefludd"]),
   ("thomas mraz", ["томас мраз", "mraz"]),
   ("cream soda", ["крем сода", "creamsoda"]),
   ("три дня дождя", ["три дня дождя", "3 дня дождя"]),
   ("макс корж", ["макс корж", "корж", "maks korzh"]),
   ("хлеб", ["хлеб", "hleb"]),
   ("кис-кис", ["кис-кис", "кискис", "kis kis"]),
   ("пошлая молли", ["пошлая молли", "molly"])]

/-- The per-alias hit test of `resolve_artist_alias`: normalised equality,
raw lower-cased equality, or Levenshtein distance ≤ 2 between the
normalised forms. -/
def aliasHit (query_lower query_norm a : String) : Bool :=
  query_norm == normalize_artist_name a || query_lower == pyLower a ||
  levenshtein_distance query_norm (normalize_artist_name a) ≤ 2

/-- The source's nested loop over the alias table: first canonical key with
a hitting alias wins; the fallback returns the query unchanged. -/
def resolveAliasGo (query query_lower query_norm : String) :
    List (String × List String) → String
  | [] => query
  | (canonical, aliases) :: rest =>
    if aliases.any (aliasHit query_lower query_norm) then canonical
    else resolveAliasGo query query_lower query_norm rest

/-- `resolve_artist_alias` from `src/recommender/music.py`. -/
def resolve_artist_alias (query : String) : String :=
  let query_lower := pyStrip (pyLower query)
  let query_norm := normalize_artist_name query_lower
  resolveAliasGo query query_lower query_norm ARTIST_ALIASES

/-! ### `src/recommender/music.py`: the catalog and `MusicRecommender` -/

/-- One catalog row after loading (`_load_data`): numeric feature cells may
be missing (`NaN` is modelled as `none`), `genres_parsed` is the parsed
genre list, missing language is already defaulted to "other" at load. -/
structure Row where
  spotify_id : String := ""
  name : String := ""
  artist : String := ""
  year : Option Int := none
  genres_parsed : List String := []
  language : String := "other"
  valence : Option ℚ := none
  energy : Option ℚ := none
  danceability : Option ℚ := none
  acousticness : Option ℚ := none
  tempo : Option ℚ := none
deriving Repr, DecidableEq

/-- The `filters` dict handed to `recommend`; `none` is an absent key. -/
structure Filters where
  artist : Option String := none
  language : Option String := none
  genres : Option (List String) := none
  year_start : Option Int := none
  year_end : Option Int := none
deriving Repr, DecidableEq

/-- The `features` dict handed to `recommend` (`none` is an absent key). -/
structure TargetFeatures where
  valence : Option ℚ := none
  energy : Option ℚ := none
  danceability : Option ℚ := none
  acousticness : Option ℚ := none
  tempo : Option ℚ := none
deriving Repr, DecidableEq

/-- The `Track` dataclass, with its field defaults. -/
structure Track where
  spotify_id : String
  name : String
  artist : String
  year : Option Int := none
  genres : List String := []
  language : String := "other"
  valence : ℚ := 1/2
  energy : ℚ := 1/2
  danceability : ℚ := 1/2
  acousticness : ℚ := 1/2
  tempo : ℚ := 120
  distance : ℚ := 0
deriving Repr, DecidableEq

/-- `Track.spotify_url`. -/
def Track.spotify_url (t : Track) : String :=
  if t.spotify_id ≠ "" && t.spotify_id ≠ "nan" then
    "https://open.spotify.com/track/" ++ t.spotify_id
  else ""

/-- The `GENRE_MAPPING` genre → sub-genre synonym table. -/
def GENRE_MAPPING : List (String × List String) :=
  [("pop", ["pop", "dance pop", "russian pop", "classic russian pop"]),
   ("dance", ["dance", "dance pop", "edm", "russian dance pop"]),
   ("electronic", ["electronic", "edm", "house", "techno", "trance", "russian electronic"]),
   ("indie", ["indie", "indie pop", "russian indie", "indie rock"]),
   ("hip_hop", ["hip hop", "russian hip hop", "southern hip hop"]),
   ("rap", ["rap", "pop rap", "russian hip hop", "trap"]),
   ("trap", ["trap", "russian trap"]),
   ("rnb", ["r&b", "urban contemporary"]),
   ("rock", ["rock", "russian rock", "classic russian rock", "modern rock", "hard rock"]),
   ("metal", ["metal", "russian metal", "russian folk metal", "russian black metal"]),
   ("punk", ["punk", "russian punk", "russian post-punk"]),
   ("alternative", ["alternative", "russian alternative"]),
   ("classical", ["classical", "russian classical piano", "symphony"]),
   ("instrumental", ["instrumental", "piano", "ambient"]),
   ("ambient", ["ambient", "chill"]),
   ("jazz", ["jazz"]),
   ("folk", ["folk", "russian folk", "russian folk metal"]),
   ("latin", ["latin", "reggaeton", "tropical"]),
   ("soundtrack", ["soundtrack", "score"]),
   ("blues", ["blues"])]

/-- `_expand_genres`: union of the synonym lists (unknown genres are kept
as themselves).  The Python builds a `set`; only membership in the result
is ever consumed, so a duplicate-preserving list is an equivalent model. -/
def expand_genres (genre_filters : List String) : List String :=
  genre_filters.flatMap (fun g =>
    let gl := pyLower g
    match GENRE_MAPPING.find? (fun p => p.1 == gl) with
    | some p => p.2
    | none => [gl])

/-- The `has_genre` row predicate inside `recommend`: empty parsed genre
list never matches; otherwise the lower-cased genre set must intersect the
expanded filter set. -/
def hasGenreHit (expanded : List String) (track_genres : List String) : Bool :=
  if track_genres.isEmpty then false
  else track_genres.any (fun g => expanded.contains (pyLower g))

/-- One weighted term of `_calculate_distance` for a 0–1 feature: skipped
(0) when the target dict lacks the key. -/
def featTerm (w : ℚ) (cand : ℚ) (target : Option ℚ) : ℚ :=
  match target with
  | none => 0
  | some tv => w * (cand - tv) ^ 2

/-- The tempo term of `_calculate_distance`: the raw difference is divided
by 140 before squaring. -/
def tempoTerm (w : ℚ) (cand : ℚ) (target : Option ℚ) : ℚ :=
  match target with
  | none => 0
  | some tv => w * ((cand - tv) / 140) ^ 2

/-- The pre-square-root value computed by `_calculate_distance` for one
row: weights valence 1.5, energy 1.2, danceability 1.0, acousticness 0.8,
tempo 0.5; missing cells default to 0.5 (120 for tempo).  The source
returns `sqrt` of this value; `Real.sqrt` is strictly monotone on
nonnegatives, so every ordering or zero-ness statement about the source's
distance is stated through `Real.sqrt` applied to this value. -/
def distanceSq (r : Row) (t : TargetFeatures) : ℚ :=
  featTerm (3/2) (r.valence.getD (1/2)) t.valence +
  featTerm (6/5) (r.energy.getD (1/2)) t.energy +
  featTerm 1 (r.danceability.getD (1/2)) t.danceability +
  featTerm (4/5) (r.acousticness.getD (1/2)) t.acousticness +
  tempoTerm (1/2) (r.tempo.getD 120) t.tempo

/-! #### The filter cascade of `recommend` -/

/-- A conditional filter stage: keep the restriction only when the
restricted set still has at least `k` rows, else keep the working set. -/
def condFilter (k : Nat) (p : Row → Bool) (ws : List Row) : List Row :=
  let f := ws.filter p
  if k ≤ f.length then f else ws

/-- Truthiness gate of the language stage:
`language and language != "other" and language != "any"`. -/
def langGate (fl : Filters) : Bool :=
  match fl.language with
  | some l => l ≠ "" && l ≠ "other" && l ≠ "any"
  | none => false

/-- Row predicate of the language stage. -/
def langPred (fl : Filters) (r : Row) : Bool :=
  r.language == fl.language.getD ""

/-- Truthiness gate of the genre stage (`if genres:`). -/
def genreGate (fl : Filters) : Bool :=
  match fl.genres with
  | some gs => !gs.isEmpty
  | none => false

/-- Row predicate of the genre stage. -/
def genrePred (fl : Filters) (r : Row) : Bool :=
  hasGenreHit (expand_genres (fl.genres.getD [])) r.genres_parsed

/-- Truthiness gate of the year-start stage (`if year_start:`, so the
integer 0 is falsy, as in Python). -/
def ysGate (fl : Filters) : Bool :=
  match fl.year_start with
  | some y => y ≠ 0
  | none => false

/-- Row predicate of the year-start stage (`df["year"] >= year_start`;
comparisons against a missing year are false, as for `NaN`). -/
def ysPred (fl : Filters) (r : Row) : Bool :=
  match r.year with
  | some yr => decide (fl.year_start.getD 0 ≤ yr)
  | none => false

/-- Truthiness gate of the year-end stage. -/
def yeGate (fl : Filters) : Bool :=
  match fl.year_end with
  | some y => y ≠ 0
  | none => false

/-- Row predicate of the year-end stage (`df["year"] <= year_end`). -/
def yePred (fl : Filters) (r : Row) : Bool :=
  match r.year with
  | some yr => decide (yr ≤ fl.year_end.getD 0)
  | none => false

/-- One named stage of the non-artist cascade. -/
def cascadeStage (gate : Filters → Bool) (p : Filters → Row → Bool)
    (k : Nat) (fl : Filters) (ws : List Row) : List Row :=
  if gate fl then condFilter k (p fl) ws else ws

/-- The non-artist filter cascade of `recommend` (source lines 381–412),
translated statement by statement. -/
def cascadeFilters (k : Nat) (fl : Filters) (df : List Row) : List Row :=
  let df1 := if langGate fl then condFilter k (langPred fl) df else df
  let df2 := if genreGate fl then condFilter k (genrePred fl) df1 else df1
  let df3 := if ysGate fl then condFilter k (ysPred fl) df2 else df2
  let df4 := if yeGate fl then condFilter k (yePred fl) df3 else df3
  df4

/-- The safety reset (source lines 414–422): restart from the full catalog
and re-apply only the language filter; note this gate does not exclude
"any", unlike the cascade's language gate. -/
def resetStep (catalog : List Row) (fl : Filters) (k : Nat) : List Row :=
  match fl.language with
  | some l =>
    if l ≠ "" && l ≠ "other" then condFilter k (fun r => r.language == l) catalog
    else catalog
  | none => catalog

/-! #### The artist branch of `recommend` -/

/-- Exact artist tier (`match_artist_exact`) on a plain string cell. -/
def matchArtistExact (artist_lower raw : String) : Bool :=
  pyLower raw == artist_lower

/-- Substring artist tier (`match_artist_partial`) on a plain string cell. -/
def matchArtistSub (artist_lower raw : String) : Bool :=
  strContains (pyLower raw) artist_lower

/-- Fuzzy artist tier (`match_artist_fuzzy`) on a plain string cell. -/
def matchArtistFuzzy (artist_lower raw : String) : Bool :=
  fuzzy_artist_match artist_lower (pyLower raw)

/-- The exact tier's hit set (`df[df[artist_col].apply(match_artist_exact)]`). -/
def artistTierExact (catalog : List Row) (al : String) : List Row :=
  catalog.filter (fun r => matchArtistExact al r.artist)

/-- The substring tier's hit set. -/
def artistTierSub (catalog : List Row) (al : String) : List Row :=
  catalog.filter (fun r => matchArtistSub al r.artist)

/-- The fuzzy tier's hit set. -/
def artistTierFuzzy (catalog : List Row) (al : String) : List Row :=
  catalog.filter (fun r => matchArtistFuzzy al r.artist)

/-- The three-tier artist search: each later tier is evaluated only when
every earlier tier produced zero hits; `none` when all tiers are empty. -/
def artistSearch (catalog : List Row) (artist_lower : String) :
    Option (List Row) :=
  let exact := artistTierExact catalog artist_lower
  if exact.length > 0 then some exact
  else
    let sub := artistTierSub catalog artist_lower
    if sub.length > 0 then some sub
    else
      let fz := artistTierFuzzy catalog artist_lower
      if fz.length > 0 then some fz else none

/-- The alias-resolved, lower-cased, stripped artist query string
(`artist = resolve_artist_alias(artist); artist_lower = artist.lower().strip()`). -/
def resolvedArtistLower (a : String) : String :=
  pyStrip (pyLower (resolve_artist_alias a))

/-- The working set and `artist_found` flag of `recommend` just before
ranking: the artist branch (alias resolution, the three tiers, and the
unconditional restriction to the hits regardless of `top_k`), else the
cascade followed by the safety reset. -/
def recommendWorkingSet (catalog : List Row) (fl : Filters) (k : Nat) :
    List Row × Bool :=
  let hits :=
    match fl.artist with
    | some a =>
      if a ≠ "" then artistSearch catalog (resolvedArtistLower a)
      else none
    | none => none
  match hits with
  | some h => (h, true)
  | none =>
    let df := cascadeFilters k fl catalog
    let df := if df.length < k then resetStep catalog fl k else df
    (df, false)

/-! #### Ranking, deduplication and the build loop of `recommend` -/

/-- The normalised track-name key (`name.lower().strip()`). -/
def nameKey (name : String) : String := pyStrip (pyLower name)

/-- `drop_duplicates(subset=["name_lower"], keep="first")` over scored
rows, keeping the first occurrence of each key. -/
def dedupByNameKey : List (Row × ℚ) → List String → List (Row × ℚ)
  | [], _ => []
  | (r, d) :: rest, seen =>
    let key := nameKey r.name
    if seen.contains key then dedupByNameKey rest seen
    else (r, d) :: dedupByNameKey rest (key :: seen)

/-- Stable insertion into a list sorted ascending by `key` (an earlier
element stays before later elements with an equal key). -/
def insSorted (key : Row × ℚ → ℚ) (x : Row × ℚ) : List (Row × ℚ) → List (Row × ℚ)
  | [] => [x]
  | y :: ys => if key x ≤ key y then x :: y :: ys else y :: insSorted key x ys

/-- Stable ascending sort by `key`; together with `List.take n` this is
`DataFrame.nsmallest(n, col)` with the default `keep="first"`. -/
def sortByKey (key : Row × ℚ → ℚ) : List (Row × ℚ) → List (Row × ℚ)
  | [] => []
  | x :: xs => insSorted key x (sortByKey key xs)

/-- The artist display string chosen in the build loop, collapsed to the
single modelled artist column: blocklisted or empty values are replaced by
"Unknown Artist". -/
def displayArtist (raw : String) : String :=
  if raw == "" || (pyLower raw) ∈ ["nan", "none", "unknown", "[]", ""] then
    "Unknown Artist"
  else raw

/-- One `Track` built from a scored row in the build loop (missing numeric
cells default as in the source's `row.get(col, default)` calls). -/
def mkTrack (r : Row) (dist : ℚ) : Track :=
  { spotify_id := r.spotify_id
    name := r.name
    artist := displayArtist r.artist
    year := r.year
    genres := r.genres_parsed
    language := r.language
    valence := r.valence.getD (1/2)
    energy := r.energy.getD (1/2)
    danceability := r.danceability.getD (1/2)
    acousticness := r.acousticness.getD (1/2)
    tempo := r.tempo.getD 120
    distance := dist }

/-- The final build loop of `recommend`: a second seen-name check, and a
break as soon as `top_k` tracks have been accumulated (checked after each
append, as in the source). -/
def buildTracksGo (k : Nat) : List (Row × ℚ) → List String → List Track → List Track
  | [], _, acc => acc.reverse
  | (r, d) :: rest, seen, acc =>
    let key := nameKey r.name
    if seen.contains key then buildTracksGo k rest seen acc
    else
      let acc' := mkTrack r d :: acc
      if k ≤ acc'.length then acc'.reverse
      else buildTracksGo k rest (key :: seen) acc'

/-- `MusicRecommender.recommend` over an in-memory catalog: working set,
distance column, name deduplication, `nsmallest(top_k * 2)`, build loop.
The rows are ranked by the squared weighted distance; the source ranks by
its square root, and `Real.sqrt` is strictly monotone and injective on
nonnegatives, so the selection, its order and its ties are identical. -/
def recommend (catalog : List Row) (features : TargetFeatures)
    (fl : Filters) (top_k : Nat) : List Track :=
  let df := (recommendWorkingSet catalog fl top_k).1
  let scored := df.map (fun r => (r, distanceSq r features))
  let dd := dedupByNameKey scored []
  let sel := (sortByKey (fun x => x.2) dd).take (top_k * 2)
  buildTracksGo top_k sel [] []

/-! ### `src/intent/extractor.py`: keyword-table intent extraction -/

/-- The `UserIntent` dataclass. -/
structure UserIntent where
  audio_emotion : Option String := none
  audio_emotion_confidence : Option ℚ := none
  language : Option String := none
  genres : List String := []
  mood_keywords : List String := []
  play_intent : Bool := false
  transcript : String := ""
  artist : Option String := none
  keywords : List String := []
deriving Repr, DecidableEq

/-- A `\w` word character for the scripts of this code base:
ASCII letters and digits, underscore, and Cyrillic letters. -/
def isWordChar (c : Char) : Bool :=
  isLat c || isDigitChar c || c == '_' || isCyr c

/-- Splitter behind `re.findall(r"\w+", ...)`: maximal word-character runs. -/
def tokenizeGo : List Char → List Char → List (List Char)
  | [], cur => if cur.isEmpty then [] else [cur.reverse]
  | c :: cs, cur =>
    if isWordChar c then tokenizeGo cs (c :: cur)
    else if cur.isEmpty then tokenizeGo cs [] else cur.reverse :: tokenizeGo cs []

/-- `IntentExtractor.tokenize`: `re.findall(r"\w+", text.lower())`. -/
def tokenize (text : String) : List String :=
  (tokenizeGo (pyLower text).toList []).map String.mk

/-- The `GENRE_KEYWORDS` table (Python sets modelled as lists; only an
existential scan over them is consumed). -/
def GENRE_KEYWORDS : List (String × List String) :=
  [("pop", ["pop", "поп", "попс"]),
   ("dance", ["dance", "танц", "дэнс"]),
   ("electronic", ["electronic", "edm", "house", "techno", "trance", "электрон", "хаус", "техно", "транс"]),
   ("indie", ["indie", "инди"]),
   ("hip_hop", ["hip", "hop", "хип", "хоп"]),
   ("rap", ["rap", "рэп", "реп", "рэпчик"]),
   ("trap", ["trap", "трэп", "треп"]),
   ("rnb", ["rnb", "r&b", "рнб", "ритм"]),
   ("rock", ["rock", "рок"]),
   ("metal", ["metal", "метал", "металл"]),
   ("punk", ["punk", "панк"]),
   ("alternative", ["alternative", "альтернатив", "альт"]),
   ("classical", ["classical", "классик", "symphon", "orchestr", "оркест", "симфон"]),
   ("instrumental", ["instrumental", "инструмент", "piano", "пиан", "фортепиано"]),
   ("ambient", ["ambient", "эмбиент", "амбиент"]),
   ("jazz", ["jazz", "джаз"]),
   ("folk", ["folk", "фолк", "народн"]),
   ("latin", ["latin", "латино", "регетон", "reggaeton"]),
   ("soundtrack", ["soundtrack", "саундтрек", "score", "кино", "фильм"]),
   ("blues", ["blues", "блюз"])]

/-- The three `LANGUAGE_KEYWORDS` trigger lists, in source order. -/
def LANGUAGE_KEYWORDS_instr : List String :=
  ["инструментал", "без слов", "без вокал", "фонов", "саундтрек", "без текст"]

def LANGUAGE_KEYWORDS_ru : List String :=
  ["русск", "российск", "по-русск", "отечествен", "наш"]

def LANGUAGE_KEYWORDS_en : List String :=
  ["английск", "по-английск", "english", "англоязычн", "зарубежн", "иностран"]

/-- The `MOOD_KEYWORDS` table, in source (insertion) order. -/
def MOOD_KEYWORDS : List (String × List String) :=
  [("happy", ["весел", "радост", "позитив", "жизнерадост", "счастл", "хорош", "отличн"]),
   ("sad", ["грустн", "печальн", "тоскл", "меланхол", "плох", "одинок", "горе"]),
   ("energetic", ["энергичн", "бодр", "драйв", "активн", "мощн", "зажигательн"]),
   ("calm", ["спокойн", "расслаб", "тих", "умиротвор", "мягк", "нежн", "уютн"]),
   ("angry", ["злост", "агрессив", "ярост", "бешен", "дик", "жёстк", "жестк"]),
   ("romantic", ["романтичн", "любов", "нежн", "чувствен", "лиричн"]),
   ("nostalgic", ["ностальг", "старых", "прошл", "ретро", "винтаж"]),
   ("party", ["вечеринк", "тусовк", "клуб", "танцпол", "пати", "движ"])]

/-- The `PLAY_KEYWORDS` set. -/
def PLAY_KEYWORDS : List String :=
  ["включи", "поставь", "запусти", "проиграй", "воспроизведи",
   "хочу", "давай", "дай", "найди", "подбери", "порекомендуй",
   "play", "start", "put"]

/-- The stop-word set of `extract_keywords`. -/
def STOP_WORDS : List String :=
  ["я", "ты", "мы", "вы", "он", "она", "они", "оно", "что", "как",
   "это", "тот", "такой", "такая", "такие", "мне", "мой", "моя", "мои",
   "тебе", "твой", "хочу", "хочется", "нужно", "нужна", "можно", "можешь",
   "давай", "дай", "включи", "поставь", "послушать", "слушать", "музык",
   "песн", "трек", "нибудь", "какой", "какую", "какие", "очень",
   "немного", "чуть", "просто", "сейчас", "сегодня", "вчера", "потом",
   "ещё", "еще", "только", "уже", "тоже", "также", "или", "либо", "а", "и",
   "но", "да", "нет", "не", "под", "на", "в", "к", "от", "для", "с", "по"]

/-- A token triggers a keyword when it starts with it or contains it
(`token.startswith(kw) or kw in token`). -/
def tokenTriggers (token kw : String) : Bool :=
  startsWithL token.toList kw.toList || strContains token kw

/-- `extract_genres`: all genre categories with some triggering token (the
Python accumulates into a set keyed by table entries, so table order is an
equivalent deterministic listing). -/
def extract_genres (text : String) : List String :=
  let tokens := tokenize text
  (GENRE_KEYWORDS.filter
    (fun p => tokens.any (fun t => p.2.any (tokenTriggers t)))).map Prod.fst

/-- `extract_language`: the first matching category in the fixed priority
order instrumental → ru → en, by substring search over the whole
lower-cased text; `none` when nothing matches. -/
def extract_language (text : String) : Option String :=
  let tl := pyLower text
  if LANGUAGE_KEYWORDS_instr.any (fun kw => strContains tl kw) then some "instrumental"
  else if LANGUAGE_KEYWORDS_ru.any (fun kw => strContains tl kw) then some "ru"
  else if LANGUAGE_KEYWORDS_en.any (fun kw => strContains tl kw) then some "en"
  else none

/-- `extract_mood`: all matching mood categories, in table order. -/
def extract_mood (text : String) : List String :=
  let tl := pyLower text
  (MOOD_KEYWORDS.filter (fun p => p.2.any (fun kw => strContains tl kw))).map Prod.fst

/-- `extract_play_intent`: some token is a play keyword. -/
def extract_play_intent (text : String) : Bool :=
  (tokenize text).any (fun t => PLAY_WORDS_contains t)
where
  PLAY_WORDS_contains (t : String) : Bool := PLAY_KEYWORDS.contains t

/-- `extract_keywords`: the first 5 non-stop-word tokens of length ≥ 3. -/
def extract_keywords (text : String) : List String :=
  ((tokenize text).filter
    (fun t => 3 ≤ t.length && !STOP_WORDS.contains t)).take 5

/-- `IntentExtractor.extract` / `extract_user_intent`.  The pipeline may
hand in `None` for the transcript; `None` and `""` take the same
empty-text branch, so the text argument is the `""`-defaulted string. -/
def extract_user_intent (text : String) (audio_emotion : Option String)
    (audio_emotion_confidence : Option ℚ) : UserIntent :=
  if text == "" || pyStrip text == "" then
    { audio_emotion := audio_emotion
      audio_emotion_confidence := audio_emotion_confidence
      transcript := "" }
  else
    { audio_emotion := audio_emotion
      audio_emotion_confidence := audio_emotion_confidence
      language := extract_language text
      genres := extract_genres text
      mood_keywords := extract_mood text
      play_intent := extract_play_intent text
      transcript := pyStrip text
      artist := none
      keywords := extract_keywords text }

/-! ### `src/track_validator.py`: language detection and validation -/

/-- Count of Cyrillic characters (`CYRILLIC_PATTERN.findall`). -/
def countCyr (s : String) : Nat := (s.toList.filter isCyr).length

/-- Count of Latin characters (`LATIN_PATTERN.findall`). -/
def countLat (s : String) : Nat := (s.toList.filter isLat).length

/-- `CYRILLIC_PATTERN.search(s)` is truthy. -/
def hasCyr (s : String) : Bool := s.toList.any isCyr

/-- `TrackValidator.detect_language_from_text`: "ru" when the Cyrillic
fraction of counted letters exceeds 0.5, "en" when the Latin fraction
exceeds 0.8, else "other" (also for empty or letterless text). -/
def detect_language_from_text (text : String) : String :=
  if text == "" then "other"
  else
    let cyrillic_count := countCyr text
    let latin_count := countLat text
    let total := cyrillic_count + latin_count
    if total == 0 then "other"
    else if (cyrillic_count : ℚ) / (total : ℚ) > 1/2 then "ru"
    else if (latin_count : ℚ) / (total : ℚ) > 4/5 then "en"
    else "other"

/-- The `ValidatedTrack` dataclass. -/
structure ValidatedTrack where
  spotify_id : String
  name : String
  artist : String
  year : Option Int
  language : String
  genres : List String
  spotify_url : String
  is_verified : Bool := false
  verification_source : String := "dataset"
deriving Repr, DecidableEq

/-- The slice of `Track.to_dict()` consumed by the validator. -/
structure TrackDict where
  spotify_id : String := ""
  name : String := ""
  artist : String := ""
  year : Option Int := none
  language : String := "other"
  genres : List String := []
  spotify_url : String := ""
deriving Repr, DecidableEq

def trackToDict (t : Track) : TrackDict :=
  { spotify_id := t.spotify_id
    name := t.name
    artist := t.artist
    year := t.year
    language := t.language
    genres := t.genres
    spotify_url := t.spotify_url }

/-- The external-verification payload assembled by `verify_with_spotify`
(the Spotify client catches transport errors internally, so the outcome is
a total `Option`). -/
structure SpotifyVerifyInfo where
  name : String
  artist : String
  release_date : String := ""
  spotify_url : String := ""
  genres : List String := []
deriving Repr, DecidableEq

/-- The guard `verify_spotify and spotify_id and self.spotify.is_available()`
in front of `verify_with_spotify` (which re-checks availability itself). -/
def spotifyGate (avail : Bool) (verify : String → Option SpotifyVerifyInfo)
    (verify_spotify : Bool) (td : TrackDict) : Option SpotifyVerifyInfo :=
  if verify_spotify && td.spotify_id ≠ "" && avail then verify td.spotify_id
  else none

/-- The language re-derivation block of `validate_tracks` (source lines
186–193): the detect result when conclusive, else the remaining-Cyrillic
rule, else the no-Cyrillic rule that keeps only a prior "en" or
"instrumental" classification. -/
def deriveLanguage (name artist prior : String) : String :=
  let detected := detect_language_from_text (name ++ " " ++ artist)
  if detected ≠ "other" then detected
  else if hasCyr name || hasCyr artist then "ru"
  else if !hasCyr name && !hasCyr artist then
    (if prior == "en" || prior == "instrumental" then prior else "en")
  else prior

/-- The per-track body of `TrackValidator.validate_tracks`: optional
external override of name/artist/url/genres/year, language re-derivation,
artist blocklist replacement, and the URL fallback. -/
def validateOne (avail : Bool) (verify : String → Option SpotifyVerifyInfo)
    (verify_spotify : Bool) (td : TrackDict) : ValidatedTrack :=
  let info := spotifyGate avail verify verify_spotify td
  let name := match info with | some i => i.name | none => td.name
  let artist := match info with | some i => i.artist | none => td.artist
  let spotify_url := match info with | some i => i.spotify_url | none => td.spotify_url
  let genres := match info with
    | some i => if i.genres.isEmpty then td.genres else i.genres
    | none => td.genres
  let year := match info with
    | some i =>
      if i.release_date ≠ "" then
        match pyParseInt ((i.release_date.toList.take 4).asString) with
        | some y => some y
        | none => td.year
      else td.year
    | none => td.year
  let language := deriveLanguage name artist td.language
  let artist :=
    if artist == "" || (pyLower artist) ∈ ["unknown", "nan", "none", ""] then
      "Unknown Artist"
    else artist
  let spotify_url :=
    if spotify_url == "" && td.spotify_id ≠ "" &&
        !(["nan", "None", ""].contains td.spotify_id) then
      "https://open.spotify.com/track/" ++ td.spotify_id
    else spotify_url
  { spotify_id := td.spotify_id
    name := name
    artist := artist
    year := year
    language := language
    genres := genres
    spotify_url := spotify_url
    is_verified := info.isSome
    verification_source := if info.isSome then "spotify" else "dataset" }

/-- `TrackValidator.validate_tracks` (the `use_gigachat` flag is dead in
this method). -/
def validate_tracks (avail : Bool) (verify : String → Option SpotifyVerifyInfo)
    (verify_spotify : Bool) (tracks : List TrackDict) : List ValidatedTrack :=
  tracks.map (validateOne avail verify verify_spotify)

/-- `TrackValidator.validate_and_enrich` with `use_gigachat=False` (as the
pipeline calls it): external verification is budgeted to the first
`max_spotify_calls` tracks. -/
def validate_and_enrich (avail : Bool) (verify : String → Option SpotifyVerifyInfo)
    (tracks : List TrackDict) (max_spotify_calls : Nat) : List ValidatedTrack :=
  tracks.enum.map (fun p => validateOne avail verify (p.1 < max_spotify_calls) p.2)

/-! ### `src/llm/gigachat.py`: the total service wrappers -/

/-- `GigaChatService.generate_clarification`: the LLM reply is stripped;
any exception is caught and replaced by the fixed clarification fallback. -/
def generate_clarification (llmReply : Except String String) : String :=
  match llmReply with
  | .ok content => pyStrip content
  | .error _ =>
    "Не совсем понял, какую музыку ты хочешь. Можешь сказать подробнее — какое у тебя настроение или какой жанр?"

/-- The fixed fallback table of `GigaChatService._get_fallback_response`. -/
def fallbackResponse (intent : UserIntent) : String :=
  match intent.audio_emotion with
  | some "happy" => "Вижу отличное настроение! Подобрал треки, чтобы продлить позитив!"
  | some "sad" => "Понимаю тебя. Вот музыка, которая поможет пережить этот момент."
  | some "angry" => "Чувствую энергию! Эти треки помогут выплеснуть эмоции."
  | some "energetic" => "Ловлю драйв! Вот музыка для заряда!"
  | some "calm" => "Подобрал спокойные треки для расслабления."
  | _ => "Вот подборка под твое настроение!"

/-- `GigaChatService.generate_response`: stripped LLM reply, or the
emotion-keyed fallback when the call raised. -/
def generate_response (llmReply : Except String String) (intent : UserIntent) : String :=
  match llmReply with
  | .ok content => pyStrip content
  | .error _ => fallbackResponse intent

/-! ### `src/pipeline.py`: the orchestrator -/

/-- `AudioProcessingResult` (the fields read by the pipeline). -/
structure AudioProcessingResult where
  status : String
  reason : Option String := none
  transcript : Option String := none
  emotion : Option String := none
  emotion_confidence : Option ℚ := none
  duration : Option ℚ := none
deriving Repr, DecidableEq

/-- The dict returned by `analyze_music_request` (that method catches all
exceptions and falls back internally, so it is total). -/
structure Analysis where
  features : TargetFeatures := {}
  filters : Filters := {}
  mood_interpretation : String := ""
deriving Repr, DecidableEq

/-- A raw Spotify search item consumed by `_search_spotify_tracks`. -/
structure SpotifyTrackItem where
  spotify_id : String
  name : String
  artist : String
  release_date : Option String := none
deriving Repr, DecidableEq

/-- The collaborators of `MusicRecommendationPipeline.process_audio`.
Stages that catch internally are total functions; the recommender's
dataset load (`_load_data`) can raise, hence `Except`. -/
structure Env where
  audio : AudioProcessingResult
  clarifyLLM : Except String String
  analyze : UserIntent → Analysis
  dataset : Except String (List Row)
  spotifyAvailable : Bool
  searchByMood : String → Option String → Option String → Nat → List SpotifyTrackItem
  searchTracks : String → Nat → String → List SpotifyTrackItem
  verifyInfo : String → Option SpotifyVerifyInfo
  responseLLM : Except String String
  useSpotifySearch : Bool := true
  validateTracksFlag : Bool := true

/-- The `PipelineResult` dataclass. -/
structure PipelineResult where
  success : Bool
  error_message : Option String := none
  response_text : String := ""
  tracks : List Track := []
  transcript : Option String := none
  audio_emotion : Option String := none
  intent : Option UserIntent := none
  mood_interpretation : Option String := none
  features : Option TargetFeatures := none
  filters : Option Filters := none
deriving Repr, DecidableEq

/-- `_get_invalid_audio_message`. -/
def invalidAudioMessage (reason : Option String) : String :=
  match reason with
  | some "silence" => "В сообщении тишина. Попробуй записать еще раз."
  | some "too_short" => "Сообщение слишком короткое. Расскажи подробнее, какую музыку хочешь."
  | some "too_noisy" => "Слишком много шума, не могу разобрать. Попробуй в более тихом месте."
  | some "transcript_too_short" => "Не удалось распознать речь. Попробуй еще раз."
  | some "no_audio_provided" => "Отправь голосовое сообщение, и я подберу музыку."
  | _ => "Что-то пошло не так. Попробуй еще раз."

/-- The `error_messages` dict lookup with its "Unknown error" default. -/
def statusErrorMessage (a : AudioProcessingResult) : String :=
  if a.status == "invalid_audio" then invalidAudioMessage a.reason
  else if a.status == "error" then
    "Error: " ++ (match a.reason with | some r => r | none => "None")
  else "Unknown error"

/-- Truthiness of an optional string (Python `if s:`). -/
def optStrTruthy : Option String → Bool
  | some s => s ≠ ""
  | none => false

/-- The `mood_map` of `_search_spotify_tracks`, with the `.get(_, "")`
default for an unmapped or absent emotion. -/
def moodOf : Option String → String
  | some "happy" => "happy"
  | some "sad" => "sad"
  | some "angry" => "energetic"
  | some "neutral" => "calm"
  | some "fear" => "calm"
  | some "disgust" => "sad"
  | some "surprise" => "energetic"
  | _ => ""

/-- A `Track` built from one raw Spotify item in `_search_spotify_tracks`
(acousticness, tempo and distance keep their dataclass defaults; an
unparsable year prefix is modelled as `None`). -/
def spotifyItemTrack (language : Option String) (features : TargetFeatures)
    (item : SpotifyTrackItem) : Track :=
  { spotify_id := item.spotify_id
    name := item.name
    artist := item.artist
    year :=
      match item.release_date with
      | some rd => if 4 ≤ rd.length then pyParseInt ((rd.toList.take 4).asString) else none
      | none => none
    language := if optStrTruthy language then language.getD "" else "other"
    valence := features.valence.getD (1/2)
    energy := features.energy.getD (1/2)
    danceability := features.danceability.getD (1/2) }

/-- `MusicRecommendationPipeline._search_spotify_tracks`. -/
def searchSpotifyTracks (env : Env) (intent : UserIntent)
    (features : TargetFeatures) (limit : Nat) : List Track :=
  let mood := moodOf intent.audio_emotion
  let genre := intent.genres.head?
  let language := intent.language
  let results :=
    if mood ≠ "" then env.searchByMood mood genre language limit
    else
      let query_parts := (match genre with | some g => [g] | none => []) ++ intent.keywords.take 2
      let query := if query_parts.isEmpty then "popular music" else " ".intercalate query_parts
      let market := if language == some "ru" then "RU" else "US"
      env.searchTracks query limit market
  results.map (spotifyItemTrack language features)

/-- The track rebuilt from a `ValidatedTrack` after validation (source
lines 203–213): only six fields are carried over, every other `Track`
field keeps its dataclass default. -/
def rebuildTrack (v : ValidatedTrack) : Track :=
  { spotify_id := v.spotify_id
    name := v.name
    artist := v.artist
    year := v.year
    genres := v.genres
    language := v.language }

/-- The clarification guard (source lines 127–132). -/
def needsClarification (a : AudioProcessingResult) (intent : UserIntent) : Bool :=
  (a.transcript.getD "").length < 5 && intent.genres.isEmpty &&
  intent.mood_keywords.isEmpty && decide ((a.emotion_confidence.getD 0) < 1/2)

/-- The intent the pipeline extracts at step 2 (a `None` transcript takes
the same empty-text path as `""`). -/
def pipelineIntent (env : Env) : UserIntent :=
  extract_user_intent (env.audio.transcript.getD "") env.audio.emotion
    env.audio.emotion_confidence

/-- The result produced by the non-"ok" entry guard. -/
def invalidAudioResult (env : Env) : PipelineResult × List String :=
  ({ success := false
     error_message := some (statusErrorMessage env.audio)
     transcript := env.audio.transcript
     audio_emotion := env.audio.emotion },
   ["audio.process", "metrics.save"])

/-- The result produced by the clarification short-circuit. -/
def clarificationResult (env : Env) : PipelineResult × List String :=
  ({ success := true
     response_text := generate_clarification env.clarifyLLM
     tracks := []
     transcript := env.audio.transcript
     audio_emotion := env.audio.emotion
     intent := some (pipelineIntent env) },
   ["audio.process", "generate_clarification", "metrics.save"])

/-- The intent-backfill of the inferred filters: intent language/genres
fill empty slots, inference output wins where both exist. -/
def mergedFilters (intent : UserIntent) (analysis : Analysis) : Filters :=
  let filters := analysis.filters
  let filters :=
    if optStrTruthy intent.language && !optStrTruthy filters.language then
      { filters with language := intent.language }
    else filters
  if !intent.genres.isEmpty && !(match filters.genres with
      | some gs => !gs.isEmpty | none => false) then
    { filters with genres := some intent.genres }
  else filters

/-- Local recommendation plus the conditional Spotify fallback extension. -/
def tracksAfterSpotify (env : Env) (top_k : Nat) (catalog : List Row) : List Track :=
  let intent := pipelineIntent env
  let features := (env.analyze intent).features
  let tracks0 := recommend catalog features (mergedFilters intent (env.analyze intent)) top_k
  if env.useSpotifySearch && env.spotifyAvailable && tracks0.length < top_k then
    tracks0 ++ searchSpotifyTracks env intent features (top_k - tracks0.length)
  else tracks0

/-- The final track list: the validation rebuild when the flag is set and
tracks exist, else the unvalidated list. -/
def tracksAfterValidate (env : Env) (top_k : Nat) (catalog : List Row) : List Track :=
  if env.validateTracksFlag && !(tracksAfterSpotify env top_k catalog).isEmpty then
    (validate_and_enrich env.spotifyAvailable env.verifyInfo
      ((tracksAfterSpotify env top_k catalog).map trackToDict) 3).map rebuildTrack
  else tracksAfterSpotify env top_k catalog

/-- The successful main-path result. -/
def mainResult (env : Env) (top_k : Nat) (catalog : List Row) :
    PipelineResult × List String :=
  let intent := pipelineIntent env
  let analysis := env.analyze intent
  let tracks0 := recommend catalog analysis.features (mergedFilters intent analysis) top_k
  ({ success := true
     response_text := generate_response env.responseLLM intent
     tracks := tracksAfterValidate env top_k catalog
     transcript := env.audio.transcript
     audio_emotion := env.audio.emotion
     intent := some intent
     mood_interpretation := some analysis.mood_interpretation
     features := some analysis.features
     filters := some (mergedFilters intent analysis) },
   ["audio.process", "analyze_music_request", "recommend"] ++
     (if env.useSpotifySearch && env.spotifyAvailable && tracks0.length < top_k then
       ["spotify_search"] else []) ++
     (if env.validateTracksFlag && !(tracksAfterSpotify env top_k catalog).isEmpty then
       ["validate_and_enrich"] else []) ++
     ["generate_response", "metrics.save"])

/-- `MusicRecommendationPipeline.process_audio`, instrumented with a trace
of collaborator invocations (second component).  The method body has no
exception handler of its own, so a raising stage surfaces as `.error`. -/
def process_audio (env : Env) (top_k : Nat) :
    Except String (PipelineResult × List String) :=
  if env.audio.status ≠ "ok" then .ok (invalidAudioResult env)
  else if needsClarification env.audio (pipelineIntent env) then
    .ok (clarificationResult env)
  else
    match env.dataset with
    | .error e => .error e
    | .ok catalog => .ok (mainResult env top_k catalog)

/-! ## Theorems -/

/-! ### C8: alias resolution -/

/-- The nested alias-table loop is a first-match scan: the first canonical
key owning a hitting alias wins, and an unmatched query falls through
unchanged. -/
theorem resolveAliasGo_eq_find (q ql qn : String)
    (table : List (String × List String)) :
    resolveAliasGo q ql qn table =
      (((table.find? (fun p => p.2.any (aliasHit ql qn))).map Prod.fst).getD q) := by
  induction table with
  | nil => rfl
  | cons hd tl ih =>
    by_cases h : hd.2.any (aliasHit ql qn)
    · simp [resolveAliasGo, List.find?, h]
    · simp only [resolveAliasGo, List.find?]
      rw [if_neg (by simp [h]), ih]
      simp [List.find?_cons, h]

/-- C8: `resolve_artist_alias(query)` returns the first canonical key (in
table order) having an alias whose normalised form equals the normalised
query, whose raw lower-cased form equals the lower-cased query, or whose
Levenshtein distance from the normalised query is at most 2 (the
`aliasHit` disjunction); if no alias matches, the query is returned
unchanged; both "Оксимирон" and "oxxxymiron" resolve to "oxxxymiron". -/
theorem c8_resolve_artist_alias_spec (q : String) :
    resolve_artist_alias q =
      (((ARTIST_ALIASES.find? (fun p =>
          p.2.any (aliasHit (pyStrip (pyLower q))
            (normalize_artist_name (pyStrip (pyLower q)))))).map Prod.fst).getD q) ∧
    resolve_artist_alias "Оксимирон" = "oxxxymiron" ∧
    resolve_artist_alias "oxxxymiron" = "oxxxymiron" :=
  ⟨resolveAliasGo_eq_find q _ _ ARTIST_ALIASES, by decide, by decide⟩

/-! ### C9: language extraction priority -/

/-- Some keyword of the category occurs as a substring of the lower-cased
text. -/
def langKwHit (kws : List String) (text : String) : Bool :=
  kws.any (fun kw => strContains (pyLower text) kw)

/-- C9: `extract_language` returns at most one language (it is
`Option`-valued), chosen as the first matching category in the priority
order instrumental → ru → en, where a category matches when one of its
keywords is a substring of the lower-cased text; it returns `none` when no
category matches. -/
theorem c9_extract_language_priority (text : String) :
    (extract_language text = some "instrumental" ↔
      langKwHit LANGUAGE_KEYWORDS_instr text = true) ∧
    (extract_language text = some "ru" ↔
      (langKwHit LANGUAGE_KEYWORDS_instr text = false ∧
       langKwHit LANGUAGE_KEYWORDS_ru text = true)) ∧
    (extract_language text = some "en" ↔
      (langKwHit LANGUAGE_KEYWORDS_instr text = false ∧
       langKwHit LANGUAGE_KEYWORDS_ru text = false ∧
       langKwHit LANGUAGE_KEYWORDS_en text = true)) ∧
    (extract_language text = none ↔
      (langKwHit LANGUAGE_KEYWORDS_instr text = false ∧
       langKwHit LANGUAGE_KEYWORDS_ru text = false ∧
       langKwHit LANGUAGE_KEYWORDS_en text = false)) := by
  unfold extract_language langKwHit
  by_cases h1 : (LANGUAGE_KEYWORDS_instr.any fun kw => strContains (pyLower text) kw) = true
  · simp [h1]
  · by_cases h2 : (LANGUAGE_KEYWORDS_ru.any fun kw => strContains (pyLower text) kw) = true
    · simp [h1, h2]
    · by_cases h3 : (LANGUAGE_KEYWORDS_en.any fun kw => strContains (pyLower text) kw) = true
      · simp [h1, h2, h3]
      · simp [h1, h2, h3]

/-- Witness for C9 at a concrete transcript: "хочу русскую музыку" has a
"ru" keyword hit and no instrumental hit, and the theorem instantiates to
`extract_language = some "ru"`. -/
theorem c9_extract_language_priority_witness :
    extract_language "хочу русскую музыку" = some "ru" :=
  (c9_extract_language_priority "хочу русскую музыку").2.1.mpr ⟨by decide, by decide⟩

/-! ### C6: the weighted distance function -/

/-- A target dict assigning all five features. -/
def mkTarget (tv te td ta tt : ℚ) : TargetFeatures :=
  { valence := some tv, energy := some te, danceability := some td,
    acousticness := some ta, tempo := some tt }

theorem featTerm_nonneg (w c : ℚ) (t : Option ℚ) (hw : 0 ≤ w) : 0 ≤ featTerm w c t := by
  cases t with
  | none => simp [featTerm]
  | some tv => exact mul_nonneg hw (sq_nonneg _)

theorem tempoTerm_nonneg (w c : ℚ) (t : Option ℚ) (hw : 0 ≤ w) : 0 ≤ tempoTerm w c t := by
  cases t with
  | none => simp [tempoTerm]
  | some tv => exact mul_nonneg hw (sq_nonneg _)

theorem distanceSq_nonneg (r : Row) (T : TargetFeatures) : 0 ≤ distanceSq r T := by
  unfold distanceSq
  have h1 := featTerm_nonneg (3/2) (r.valence.getD (1/2)) T.valence (by norm_num)
  have h2 := featTerm_nonneg (6/5) (r.energy.getD (1/2)) T.energy (by norm_num)
  have h3 := featTerm_nonneg 1 (r.danceability.getD (1/2)) T.danceability (by norm_num)
  have h4 := featTerm_nonneg (4/5) (r.acousticness.getD (1/2)) T.acousticness (by norm_num)
  have h5 := tempoTerm_nonneg (1/2) (r.tempo.getD 120) T.tempo (by norm_num)
  linarith

theorem featTerm_lt (w c c' tv : ℚ) (hw : 0 < w) (h : |c - tv| < |c' - tv|) :
    featTerm w c (some tv) < featTerm w c' (some tv) := by
  simp only [featTerm]
  exact mul_lt_mul_of_pos_left (sq_lt_sq.mpr h) hw

theorem tempoTerm_lt (w c c' tv : ℚ) (hw : 0 < w) (h : |c - tv| < |c' - tv|) :
    tempoTerm w c (some tv) < tempoTerm w c' (some tv) := by
  simp only [tempoTerm]
  apply mul_lt_mul_of_pos_left _ hw
  apply sq_lt_sq.mpr
  rw [abs_div, abs_div]
  gcongr

theorem sqrtCast_lt (a b : ℚ) (ha : 0 ≤ a) (h : a < b) :
    Real.sqrt a < Real.sqrt b :=
  Real.sqrt_lt_sqrt (by exact_mod_cast ha) (by exact_mod_cast h)

/-- C6: for a target assigning all five features, the distance
(the square root of the weighted sum with weights valence 1.5, energy 1.2,
danceability 1.0, acousticness 0.8, tempo 0.5, the tempo difference
divided by 140 before squaring, and missing candidate cells defaulted to
0.5 / 120) is 0 when the candidate's defaulted features equal the target,
and strictly increases when the absolute difference in any single feature
increases while the other four defaulted features are held fixed. -/
theorem c6_distance_zero_and_strict_mono (tv te td ta tt : ℚ) (r r' : Row) :
    ((r.valence.getD (1/2) = tv ∧ r.energy.getD (1/2) = te ∧
      r.danceability.getD (1/2) = td ∧ r.acousticness.getD (1/2) = ta ∧
      r.tempo.getD 120 = tt) →
      Real.sqrt (distanceSq r (mkTarget tv te td ta tt)) = 0) ∧
    (r'.energy.getD (1/2) = r.energy.getD (1/2) →
      r'.danceability.getD (1/2) = r.danceability.getD (1/2) →
      r'.acousticness.getD (1/2) = r.acousticness.getD (1/2) →
      r'.tempo.getD 120 = r.tempo.getD 120 →
      |r.valence.getD (1/2) - tv| < |r'.valence.getD (1/2) - tv| →
      Real.sqrt (distanceSq r (mkTarget tv te td ta tt)) <
        Real.sqrt (distanceSq r' (mkTarget tv te td ta tt))) ∧
    (r'.valence.getD (1/2) = r.valence.getD (1/2) →
      r'.danceability.getD (1/2) = r.danceability.getD (1/2) →
      r'.acousticness.getD (1/2) = r.acousticness.getD (1/2) →
      r'.tempo.getD 120 = r.tempo.getD 120 →
      |r.energy.getD (1/2) - te| < |r'.energy.getD (1/2) - te| →
      Real.sqrt (distanceSq r (mkTarget tv te td ta tt)) <
        Real.sqrt (distanceSq r' (mkTarget tv te td ta tt))) ∧
    (r'.valence.getD (1/2) = r.valence.getD (1/2) →
      r'.energy.getD (1/2) = r.energy.getD (1/2) →
      r'.acousticness.getD (1/2) = r.acousticness.getD (1/2) →
      r'.tempo.getD 120 = r.tempo.getD 120 →
      |r.danceability.getD (1/2) - td| < |r'.danceability.getD (1/2) - td| →
      Real.sqrt (distanceSq r (mkTarget tv te td ta tt)) <
        Real.sqrt (distanceSq r' (mkTarget tv te td ta tt))) ∧
    (r'.valence.getD (1/2) = r.valence.getD (1/2) →
      r'.energy.getD (1/2) = r.energy.getD (1/2) →
      r'.danceability.getD (1/2) = r.danceability.getD (1/2) →
      r'.tempo.getD 120 = r.tempo.getD 120 →
      |r.acousticness.getD (1/2) - ta| < |r'.acousticness.getD (1/2) - ta| →
      Real.sqrt (distanceSq r (mkTarget tv te td ta tt)) <
        Real.sqrt (distanceSq r' (mkTarget tv te td ta tt))) ∧
    (r'.valence.getD (1/2) = r.valence.getD (1/2) →
      r'.energy.getD (1/2) = r.energy.getD (1/2) →
      r'.danceability.getD (1/2) = r.danceability.getD (1/2) →
      r'.acousticness.getD (1/2) = r.acousticness.getD (1/2) →
      |r.tempo.getD 120 - tt| < |r'.tempo.getD 120 - tt| →
      Real.sqrt (distanceSq r (mkTarget tv te td ta tt)) <
        Real.sqrt (distanceSq r' (mkTarget tv te td ta tt))) := by
  refine ⟨?_, ?_, ?_, ?_, ?_, ?_⟩
  · rintro ⟨h1, h2, h3, h4, h5⟩
    have hz : distanceSq r (mkTarget tv te td ta tt) = 0 := by
      unfold distanceSq mkTarget
      simp only [featTerm, tempoTerm]
      rw [h1, h2, h3, h4, h5]
      ring
    rw [hz]
    push_cast
    exact Real.sqrt_zero
  · intro he hd ha ht hlt
    apply sqrtCast_lt _ _ (distanceSq_nonneg _ _)
    unfold distanceSq mkTarget
    simp only [he, hd, ha, ht]
    have := featTerm_lt (3/2) (r.valence.getD (1/2)) (r'.valence.getD (1/2)) tv
      (by norm_num) hlt
    gcongr
  · intro hv hd ha ht hlt
    apply sqrtCast_lt _ _ (distanceSq_nonneg _ _)
    unfold distanceSq mkTarget
    simp only [hv, hd, ha, ht]
    have := featTerm_lt (6/5) (r.energy.getD (1/2)) (r'.energy.getD (1/2)) te
      (by norm_num) hlt
    gcongr
  · intro hv he ha ht hlt
    apply sqrtCast_lt _ _ (distanceSq_nonneg _ _)
    unfold distanceSq mkTarget
    simp only [hv, he, ha, ht]
    have := featTerm_lt 1 (r.danceability.getD (1/2)) (r'.danceability.getD (1/2)) td
      (by norm_num) hlt
    gcongr
  · intro hv he hd ht hlt
    apply sqrtCast_lt _ _ (distanceSq_nonneg _ _)
    unfold distanceSq mkTarget
    simp only [hv, he, hd, ht]
    have := featTerm_lt (4/5) (r.acousticness.getD (1/2)) (r'.acousticness.getD (1/2)) ta
      (by norm_num) hlt
    gcongr
  · intro hv he hd ha hlt
    apply sqrtCast_lt _ _ (distanceSq_nonneg _ _)
    unfold distanceSq mkTarget
    simp only [hv, he, hd, ha]
    have := tempoTerm_lt (1/2) (r.tempo.getD 120) (r'.tempo.getD 120) tt
      (by norm_num) hlt
    gcongr

/-- Witness for C6: an all-default row is at distance 0 from the target
(0.5, 0.5, 0.5, 0.5, 120), and moving valence from the default 0.5 to 1
strictly increases the distance. -/
theorem c6_distance_zero_and_strict_mono_witness :
    Real.sqrt (distanceSq {} (mkTarget (1/2) (1/2) (1/2) (1/2) 120)) = 0 ∧
    Real.sqrt (distanceSq {} (mkTarget (1/2) (1/2) (1/2) (1/2) 120)) <
      Real.sqrt (distanceSq { valence := some 1 }
        (mkTarget (1/2) (1/2) (1/2) (1/2) 120)) :=
  ⟨(c6_distance_zero_and_strict_mono (1/2) (1/2) (1/2) (1/2) 120 {} {}).1
      ⟨rfl, rfl, rfl, rfl, rfl⟩,
   (c6_distance_zero_and_strict_mono (1/2) (1/2) (1/2) (1/2) 120 {}
      { valence := some 1 }).2.1 rfl rfl rfl rfl (by norm_num)⟩

/-! ### C3: the cascading filter relaxation -/

theorem condFilter_dichotomy (k : Nat) (p : Row → Bool) (ws : List Row) :
    (k ≤ (ws.filter p).length ∧ condFilter k p ws = ws.filter p) ∨
    ((ws.filter p).length < k ∧ condFilter k p ws = ws) := by
  unfold condFilter
  by_cases h : k ≤ (ws.filter p).length
  · exact Or.inl ⟨h, by simp [h]⟩
  · exact Or.inr ⟨by omega, by simp [h]⟩

theorem condFilter_sublist (k : Nat) (p : Row → Bool) (ws : List Row) :
    (condFilter k p ws).Sublist ws := by
  unfold condFilter
  dsimp only
  split
  · exact List.filter_sublist ws
  · exact List.Sublist.refl ws

theorem cascadeStage_sublist (g : Filters → Bool) (p : Filters → Row → Bool)
    (k : Nat) (fl : Filters) (ws : List Row) :
    (cascadeStage g p k fl ws).Sublist ws := by
  unfold cascadeStage
  split
  · exact condFilter_sublist k (p fl) ws
  · exact List.Sublist.refl ws

/-- C3: the non-artist working set is computed by the four conditional
stages in the fixed order language → genre (synonym-expanded, inside
`genrePred`) → year-start → year-end; each stage keeps its restriction
only when the restricted subset still has at least `top_k` rows and
otherwise passes the previous working set through unchanged (so a skipped
filter leaves no trace), and the result is always an order-preserving
subset of the input. -/
theorem c3_cascade_fixed_order_and_skip (k : Nat) (fl : Filters) (df : List Row) :
    cascadeFilters k fl df =
      cascadeStage yeGate yePred k fl
        (cascadeStage ysGate ysPred k fl
          (cascadeStage genreGate genrePred k fl
            (cascadeStage langGate langPred k fl df))) ∧
    (∀ (p : Row → Bool) (ws : List Row),
      (k ≤ (ws.filter p).length ∧ condFilter k p ws = ws.filter p) ∨
      ((ws.filter p).length < k ∧ condFilter k p ws = ws)) ∧
    (cascadeFilters k fl df).Sublist df := by
  refine ⟨rfl, fun p ws => condFilter_dichotomy k p ws, ?_⟩
  exact (cascadeStage_sublist _ _ _ _ _).trans
    ((cascadeStage_sublist _ _ _ _ _).trans
      ((cascadeStage_sublist _ _ _ _ _).trans (cascadeStage_sublist _ _ _ _ _)))

/-! ### C4: the artist branch tiers -/

/-- C4: with a non-empty artist filter, the query is alias-resolved first
and the tiers run exact → substring → fuzzy, each later tier only when
every earlier tier had zero hits; as soon as a tier has at least one hit,
the working set is exactly that tier's hit set — for every `top_k`, so no
language/genre/year stage and no safety reset touches it (their effects
would show up in `recommendWorkingSet`, which returns the tier hits
verbatim). -/
theorem c4_artist_tier_priority (catalog : List Row) (fl : Filters) (k : Nat)
    (a : String) (hart : fl.artist = some a) (hne : a ≠ "") :
    (artistTierExact catalog (resolvedArtistLower a) ≠ [] →
      recommendWorkingSet catalog fl k =
        (artistTierExact catalog (resolvedArtistLower a), true)) ∧
    (artistTierExact catalog (resolvedArtistLower a) = [] →
      artistTierSub catalog (resolvedArtistLower a) ≠ [] →
      recommendWorkingSet catalog fl k =
        (artistTierSub catalog (resolvedArtistLower a), true)) ∧
    (artistTierExact catalog (resolvedArtistLower a) = [] →
      artistTierSub catalog (resolvedArtistLower a) = [] →
      artistTierFuzzy catalog (resolvedArtistLower a) ≠ [] →
      recommendWorkingSet catalog fl k =
        (artistTierFuzzy catalog (resolvedArtistLower a), true)) := by
  refine ⟨?_, ?_, ?_⟩
  · intro hex
    have hl : 0 < (artistTierExact catalog (resolvedArtistLower a)).length :=
      List.length_pos.mpr hex
    unfold recommendWorkingSet artistSearch
    rw [hart]
    simp [hne, hl]
  · intro hex hsub
    have hl0 : (artistTierExact catalog (resolvedArtistLower a)).length = 0 := by
      rw [hex]; rfl
    have hl : 0 < (artistTierSub catalog (resolvedArtistLower a)).length :=
      List.length_pos.mpr hsub
    unfold recommendWorkingSet artistSearch
    rw [hart]
    simp [hne, hl0, hl]
  · intro hex hsub hfz
    have hl0 : (artistTierExact catalog (resolvedArtistLower a)).length = 0 := by
      rw [hex]; rfl
    have hl1 : (artistTierSub catalog (resolvedArtistLower a)).length = 0 := by
      rw [hsub]; rfl
    have hl : 0 < (artistTierFuzzy catalog (resolvedArtistLower a)).length :=
      List.length_pos.mpr hfz
    unfold recommendWorkingSet artistSearch
    rw [hart]
    simp [hne, hl0, hl1, hl]

/-- A two-row catalog for the C4 witness: the query "Oxxxymiron" resolves
through the alias table to "oxxxymiron", misses the exact tier (the cell
carries a suffix) and hits the substring tier. -/
def c4Catalog : List Row :=
  [{ name := "Город под подошвой", artist := "Oxxxymiron feat. Guest" },
   { name := "Other Song", artist := "Monetochka" }]

/-- Witness for C4: on `c4Catalog` with artist filter "Oxxxymiron" the
substring tier is the first non-empty tier, and the working set is exactly
its hit set with every other filter skipped — including `top_k = 5` above
the hit count of 1. -/
theorem c4_artist_tier_priority_witness :
    recommendWorkingSet c4Catalog { artist := some "Oxxxymiron" } 5 =
      ([{ name := "Город под подошвой", artist := "Oxxxymiron feat. Guest" }], true) :=
  ((c4_artist_tier_priority c4Catalog { artist := some "Oxxxymiron" } 5
      "Oxxxymiron" rfl (by decide)).2.1 (by decide) (by decide)).trans (by decide)

/-! ### C2: `recommend` caps at `top_k`, never duplicates names, and
returns empty lists normally -/

theorem buildTracksGo_length_le (k : Nat) :
    ∀ (rows : List (Row × ℚ)) (seen : List String) (acc : List Track),
      acc.length < k → (buildTracksGo k rows seen acc).length ≤ k := by
  intro rows
  induction rows with
  | nil => intro seen acc h; simpa [buildTracksGo] using Nat.le_of_lt h
  | cons hd rest ih =>
    intro seen acc h
    obtain ⟨r, d⟩ := hd
    unfold buildTracksGo
    dsimp only
    by_cases hseen : seen.contains (nameKey r.name)
    · simp only [hseen, if_true]
      exact ih seen acc h
    · simp only [hseen, if_false, Bool.false_eq_true]
      by_cases hfull : k ≤ (mkTrack r d :: acc).length
      · simp only [hfull, if_true]
        simpa using Nat.le_of_lt_succ (Nat.lt_succ_of_le (by simpa using h))
      · simp only [hfull, if_false]
        refine ih _ _ ?_
        simp only [List.length_cons] at hfull ⊢
        omega

theorem buildTracksGo_nodup (k : Nat) :
    ∀ (rows : List (Row × ℚ)) (seen : List String) (acc : List Track),
      (acc.map (fun t => nameKey t.name)).Nodup →
      (∀ t ∈ acc, nameKey t.name ∈ seen) →
      ((buildTracksGo k rows seen acc).map (fun t => nameKey t.name)).Nodup := by
  intro rows
  induction rows with
  | nil =>
    intro seen acc hnd _
    simpa [buildTracksGo, List.map_reverse] using hnd
  | cons hd rest ih =>
    intro seen acc hnd hmem
    obtain ⟨r, d⟩ := hd
    unfold buildTracksGo
    dsimp only
    by_cases hseen : seen.contains (nameKey r.name)
    · simp only [hseen, if_true]
      exact ih seen acc hnd hmem
    · have hnotin : nameKey r.name ∉ seen := by
        intro hmem'
        exact absurd (List.elem_eq_true_of_mem hmem') (by simpa using hseen)
      have hxmap : nameKey r.name ∉ acc.map (fun t => nameKey t.name) := by
        intro hx
        obtain ⟨t, ht, hteq⟩ := List.mem_map.mp hx
        exact hnotin (hteq ▸ hmem t ht)
      have hnd' : ((mkTrack r d :: acc).map (fun t => nameKey t.name)).Nodup := by
        simp only [List.map_cons, List.nodup_cons]
        exact ⟨by simpa [mkTrack] using hxmap, hnd⟩
      simp only [hseen, if_false, Bool.false_eq_true]
      by_cases hfull : k ≤ (mkTrack r d :: acc).length
      · simp only [hfull, if_true]
        rw [List.map_reverse]
        exact List.nodup_reverse.mpr hnd'
      · simp only [hfull, if_false]
        refine ih _ _ hnd' ?_
        intro t ht
        rcases List.mem_cons.mp ht with h1 | h2
        · subst h1; simp [mkTrack]
        · exact List.mem_cons_of_mem _ (hmem t h2)

theorem condFilter_nil (k : Nat) (p : Row → Bool) : condFilter k p [] = [] := by
  unfold condFilter
  simp

theorem cascadeFilters_nil (k : Nat) (fl : Filters) : cascadeFilters k fl [] = [] := by
  unfold cascadeFilters
  simp [condFilter_nil]

theorem resetStep_nil (fl : Filters) (k : Nat) : resetStep [] fl k = [] := by
  unfold resetStep
  split <;> simp [condFilter_nil]

theorem artistSearch_nil (al : String) : artistSearch [] al = none := by
  unfold artistSearch artistTierExact artistTierSub artistTierFuzzy
  simp

theorem recommendWorkingSet_nil (fl : Filters) (k : Nat) :
    recommendWorkingSet [] fl k = ([], false) := by
  unfold recommendWorkingSet
  cases h : fl.artist with
  | none => simp [cascadeFilters_nil, resetStep_nil]
  | some a =>
    by_cases ha : a = ""
    · simp [ha, cascadeFilters_nil, resetStep_nil]
    · simp [ha, artistSearch_nil, cascadeFilters_nil, resetStep_nil]

/-- C2: for every features dict, filters dict and `top_k`, `recommend`
returns at most `top_k` tracks, no two returned tracks share the same
lower-cased trimmed name, and when nothing survives (here: the empty
catalog, the only way a non-zero `top_k` ends up with no candidates) it
returns the empty list as an ordinary value — the embedding is a total
function, mirroring that no code path of `recommend` raises on empty
results. -/
theorem c2_recommend_topk_nodup_total (catalog : List Row)
    (features : TargetFeatures) (fl : Filters) (k : Nat) :
    (recommend catalog features fl k).length ≤ k ∧
    ((recommend catalog features fl k).map (fun t => nameKey t.name)).Nodup ∧
    recommend [] features fl k = [] := by
  refine ⟨?_, ?_, ?_⟩
  · unfold recommend
    cases k with
    | zero => simp [buildTracksGo]
    | succ n => exact buildTracksGo_length_le _ _ _ _ (by simp)
  · unfold recommend
    exact buildTracksGo_nodup _ _ _ _ (by simp) (by simp)
  · unfold recommend
    rw [recommendWorkingSet_nil]
    simp [dedupByNameKey, sortByKey, buildTracksGo]

/-! ### C7: validator language re-derivation -/

/-- The name the validator works with: the external override when the
verification gate fired, else the local value. -/
def effName (avail : Bool) (verify : String → Option SpotifyVerifyInfo)
    (vs : Bool) (td : TrackDict) : String :=
  match spotifyGate avail verify vs td with
  | some i => i.name
  | none => td.name

/-- The artist the validator works with (external override or local). -/
def effArtist (avail : Bool) (verify : String → Option SpotifyVerifyInfo)
    (vs : Bool) (td : TrackDict) : String :=
  match spotifyGate avail verify vs td with
  | some i => i.artist
  | none => td.artist

/-- C7: every track processed by `validate_tracks` — externally verified
or not — has its language re-derived from the combined name+artist string:
the primary script-ratio rule gives "ru" when the Cyrillic fraction of
counted letters exceeds 1/2 and "en" when the Latin fraction exceeds 4/5,
else "other"; on "other", any remaining Cyrillic content forces "ru", and
Cyrillic-free content forces "en" unless the prior classification was
already "en" or "instrumental" (which is then kept). -/
theorem c7_validate_language_rederivation (avail : Bool)
    (verify : String → Option SpotifyVerifyInfo) (vs : Bool) (td : TrackDict) :
    ((validateOne avail verify vs td).language =
      deriveLanguage (effName avail verify vs td) (effArtist avail verify vs td)
        td.language) ∧
    (∀ s : String,
      (detect_language_from_text s = "ru" ↔
        ((countCyr s : ℚ) / ((countCyr s + countLat s : Nat) : ℚ) > 1/2)) ∧
      (detect_language_from_text s = "en" ↔
        (¬((countCyr s : ℚ) / ((countCyr s + countLat s : Nat) : ℚ) > 1/2) ∧
         (countLat s : ℚ) / ((countCyr s + countLat s : Nat) : ℚ) > 4/5)) ∧
      (detect_language_from_text s = "other" ↔
        (¬((countCyr s : ℚ) / ((countCyr s + countLat s : Nat) : ℚ) > 1/2) ∧
         ¬((countLat s : ℚ) / ((countCyr s + countLat s : Nat) : ℚ) > 4/5)))) ∧
    (∀ nm ar pr : String,
      (detect_language_from_text (nm ++ " " ++ ar) ≠ "other" →
        deriveLanguage nm ar pr = detect_language_from_text (nm ++ " " ++ ar)) ∧
      (detect_language_from_text (nm ++ " " ++ ar) = "other" →
        (hasCyr nm = true ∨ hasCyr ar = true) →
        deriveLanguage nm ar pr = "ru") ∧
      (detect_language_from_text (nm ++ " " ++ ar) = "other" →
        hasCyr nm = false → hasCyr ar = false →
        pr ≠ "en" → pr ≠ "instrumental" →
        deriveLanguage nm ar pr = "en") ∧
      (detect_language_from_text (nm ++ " " ++ ar) = "other" →
        hasCyr nm = false → hasCyr ar = false →
        (pr = "en" ∨ pr = "instrumental") →
        deriveLanguage nm ar pr = pr)) := by
  refine ⟨rfl, ?_, ?_⟩
  · intro s
    unfold detect_language_from_text
    simp only [beq_iff_eq]
    by_cases h0 : s = ""
    · rw [if_pos h0]
      have hc : countCyr s = 0 := by subst h0; rfl
      have hl : countLat s = 0 := by subst h0; rfl
      rw [hc, hl]
      exact ⟨iff_of_false (by decide) (by norm_num),
             iff_of_false (by decide) (by rintro ⟨-, h⟩; norm_num at h),
             iff_of_true rfl ⟨by norm_num, by norm_num⟩⟩
    · rw [if_neg h0]
      by_cases ht : countCyr s + countLat s = 0
      · rw [if_pos ht]
        have hc : countCyr s = 0 := by omega
        have hl : countLat s = 0 := by omega
        rw [hc, hl]
        exact ⟨iff_of_false (by decide) (by norm_num),
               iff_of_false (by decide) (by rintro ⟨-, h⟩; norm_num at h),
               iff_of_true rfl ⟨by norm_num, by norm_num⟩⟩
      · rw [if_neg ht]
        by_cases hru : (countCyr s : ℚ) / ((countCyr s + countLat s : ℕ) : ℚ) > 1/2
        · rw [if_pos hru]
          exact ⟨iff_of_true rfl hru,
                 iff_of_false (by decide) (fun h => h.1 hru),
                 iff_of_false (by decide) (fun h => h.1 hru)⟩
        · rw [if_neg hru]
          by_cases hen : (countLat s : ℚ) / ((countCyr s + countLat s : ℕ) : ℚ) > 4/5
          · rw [if_pos hen]
            exact ⟨iff_of_false (by decide) (fun h => hru h),
                   iff_of_true rfl ⟨hru, hen⟩,
                   iff_of_false (by decide) (fun h => h.2 hen)⟩
          · rw [if_neg hen]
            exact ⟨iff_of_false (by decide) (fun h => hru h),
                   iff_of_false (by decide) (fun h => hen h.2),
                   iff_of_true rfl ⟨hru, hen⟩⟩
  · intro nm ar pr
    unfold deriveLanguage
    refine ⟨?_, ?_, ?_, ?_⟩
    · intro h
      simp [h]
    · intro h hcy
      rcases hcy with h1 | h1 <;> simp [h, h1]
    · intro h h1 h2 h3 h4
      simp [h, h1, h2, h3, h4]
    · intro h h1 h2 h3
      rcases h3 with h3 | h3 <;> simp [h, h1, h2, h3]

/-- Witness for C7: an unverified track named "Моя Песня" by "abc" (8
Cyrillic vs 3 Latin letters, fraction 8/11 > 1/2) is re-derived to "ru",
via the theorem's primary rule. -/
theorem c7_validate_language_rederivation_witness :
    (validateOne false (fun _ => none) false
      { name := "Моя Песня", artist := "abc", language := "other" }).language = "ru" := by
  have h := c7_validate_language_rederivation false (fun _ => none) false
    { name := "Моя Песня", artist := "abc", language := "other" }
  rw [h.1]
  exact ((h.2.2 _ _ _).1 (by decide)).trans (by decide)

/-! ### C1: exception handling at the orchestrator boundary -/

/-- An environment whose collaborators are healthy except the recommender
dataset load, which raises (`_load_data` raising `FileNotFoundError` is a
stage exception inside `process_audio`). -/
def envDatasetDown : Env :=
  { audio := { status := "ok", transcript := some "хочу веселую музыку",
               emotion := some "happy", emotion_confidence := some (4/5) }
    clarifyLLM := .ok "vopros"
    analyze := fun _ => {}
    dataset := .error "FileNotFoundError: Dataset not found"
    spotifyAvailable := false
    searchByMood := fun _ _ _ _ => []
    searchTracks := fun _ _ _ => []
    verifyInfo := fun _ => none
    responseLLM := .ok "otvet" }

/-- C1 counterexample: `process_audio` has no outermost exception handler —
with valid audio and a clear request, a raising recommender stage makes
`process_audio` itself raise (`.error`), so no `PipelineResult` with
`success = false` is returned and nothing is recorded in metrics; the
exception reaches the caller, contrary to the claim. -/
theorem c1_counterexample_exception_propagates :
    process_audio envDatasetDown 5 =
      .error "FileNotFoundError: Dataset not found" := by
  rfl

/-- C1 as amended: when the audio is valid, the clarification guard does
not fire and a stage raises (here: the dataset load inside the recommender
stage), the exception propagates out of `process_audio` unchanged — it is
the bot handler above the orchestrator that catches, not the orchestrator. -/
theorem c1_amended_stage_exception_propagates (env : Env) (k : Nat) (e : String)
    (hok : env.audio.status = "ok")
    (hnc : needsClarification env.audio (pipelineIntent env) = false)
    (hds : env.dataset = .error e) :
    process_audio env k = .error e := by
  unfold process_audio
  simp only [hok, hnc, hds]
  simp

/-- Witness for the amended C1 at the concrete broken environment. -/
theorem c1_amended_stage_exception_propagates_witness :
    envDatasetDown.audio.status = "ok" ∧
    needsClarification envDatasetDown.audio (pipelineIntent envDatasetDown) = false ∧
    envDatasetDown.dataset = .error "FileNotFoundError: Dataset not found" ∧
    process_audio envDatasetDown 5 =
      .error "FileNotFoundError: Dataset not found" :=
  ⟨rfl, by decide, rfl,
   c1_amended_stage_exception_propagates envDatasetDown 5 _ rfl (by decide) rfl⟩

/-! ### C5: the clarification short-circuit -/

/-- C5: with valid audio, a transcript under 5 characters, an intent with
no genres and no mood keywords, and emotion confidence below 0.5,
`process_audio` returns success with zero tracks and the clarification
text, and the call trace contains neither the parameter-inference call
(`analyze_music_request`) nor the recommender; the response text is
non-empty whenever the clarification LLM reply is non-blank (the fallback
on a failed call is a fixed non-empty string). -/
theorem c5_clarification_short_circuit (env : Env) (k : Nat)
    (hok : env.audio.status = "ok")
    (hlen : (env.audio.transcript.getD "").length < 5)
    (hg : (pipelineIntent env).genres = [])
    (hm : (pipelineIntent env).mood_keywords = [])
    (hconf : env.audio.emotion_confidence.getD 0 < 1/2) :
    process_audio env k = .ok (clarificationResult env) ∧
    (clarificationResult env).1.success = true ∧
    (clarificationResult env).1.tracks = [] ∧
    (clarificationResult env).1.response_text = generate_clarification env.clarifyLLM ∧
    ((match env.clarifyLLM with
      | .ok s => pyStrip s ≠ ""
      | .error _ => True) → (clarificationResult env).1.response_text ≠ "") ∧
    "analyze_music_request" ∉ (clarificationResult env).2 ∧
    "recommend" ∉ (clarificationResult env).2 := by
  have hnc : needsClarification env.audio (pipelineIntent env) = true := by
    unfold needsClarification
    rw [show (pipelineIntent env).genres = [] from hg,
        show (pipelineIntent env).mood_keywords = [] from hm]
    have hconf' : env.audio.emotion_confidence.getD 0 < 2⁻¹ := by
      rw [show ((2:ℚ)⁻¹) = 1/2 by norm_num]
      exact hconf
    simp [hlen, hconf']
  refine ⟨?_, rfl, rfl, rfl, ?_, by simp [clarificationResult],
    by simp [clarificationResult]⟩
  · unfold process_audio
    simp only [hok, hnc]
    simp
  · intro hne
    cases hc : env.clarifyLLM with
    | ok s =>
      rw [hc] at hne
      simpa [clarificationResult, generate_clarification, hc] using hne
    | error e =>
      simp [clarificationResult, generate_clarification, hc]

/-- An environment taking the clarification branch: a one-character
transcript, no keyword hits will be found, confidence 0.2. -/
def envClarify : Env :=
  { audio := { status := "ok", transcript := some "а",
               emotion := some "neutral", emotion_confidence := some (1/5) }
    clarifyLLM := .ok "Расскажи, какую музыку ты хочешь?"
    analyze := fun _ => {}
    dataset := .ok []
    spotifyAvailable := false
    searchByMood := fun _ _ _ _ => []
    searchTracks := fun _ _ _ => []
    verifyInfo := fun _ => none
    responseLLM := .ok "otvet" }

/-- Witness for C5: the transcript "а" (1 character, no genre/mood hits,
confidence 0.2) short-circuits to a successful, track-free clarification
response whose trace never mentions parameter inference or the
recommender. -/
theorem c5_clarification_short_circuit_witness :
    process_audio envClarify 5 = .ok (clarificationResult envClarify) ∧
    (clarificationResult envClarify).1.success = true ∧
    (clarificationResult envClarify).1.tracks = [] ∧
    (clarificationResult envClarify).1.response_text ≠ "" ∧
    "analyze_music_request" ∉ (clarificationResult envClarify).2 ∧
    "recommend" ∉ (clarificationResult envClarify).2 := by
  have h := c5_clarification_short_circuit envClarify 5 rfl (by decide)
    (by decide) (by decide) (by norm_num [envClarify])
  exact ⟨h.1, h.2.1, h.2.2.1,
    h.2.2.2.2.1 (show pyStrip "Расскажи, какую музыку ты хочешь?" ≠ "" by decide),
    h.2.2.2.2.2.1, h.2.2.2.2.2.2⟩

/-! ### C10: validation rebuilds tracks with default features -/

/-- C10: whenever track validation is enabled, every track of a successful
`PipelineResult` was rebuilt from its `ValidatedTrack` carrying only
spotify_id/name/artist/year/genres/language, so its valence, energy,
danceability and acousticness sit at the dataclass default 0.5, tempo at
120.0 and distance at 0.0, regardless of what the recommender computed. -/
theorem c10_validation_resets_features (env : Env) (k : Nat)
    (r : PipelineResult) (l : List String)
    (hflag : env.validateTracksFlag = true)
    (hok : process_audio env k = .ok (r, l)) :
    ∀ t ∈ r.tracks, t.valence = 1/2 ∧ t.energy = 1/2 ∧ t.danceability = 1/2 ∧
      t.acousticness = 1/2 ∧ t.tempo = 120 ∧ t.distance = 0 := by
  unfold process_audio at hok
  by_cases h1 : env.audio.status ≠ "ok"
  · rw [if_pos h1] at hok
    simp only [Except.ok.injEq, Prod.ext_iff] at hok
    obtain ⟨hr, -⟩ := hok
    subst hr
    intro t ht
    simp [invalidAudioResult] at ht
  · rw [if_neg h1] at hok
    by_cases h2 : needsClarification env.audio (pipelineIntent env) = true
    · rw [if_pos h2] at hok
      simp only [Except.ok.injEq, Prod.ext_iff] at hok
      obtain ⟨hr, -⟩ := hok
      subst hr
      intro t ht
      simp [clarificationResult] at ht
    · rw [if_neg h2] at hok
      cases hds : env.dataset with
      | error e =>
        rw [hds] at hok
        simp at hok
      | ok catalog =>
        rw [hds] at hok
        simp only [Except.ok.injEq, Prod.ext_iff] at hok
        obtain ⟨hr, -⟩ := hok
        subst hr
        intro t ht
        simp only [mainResult] at ht
        unfold tracksAfterValidate at ht
        rw [hflag] at ht
        split at ht
        · obtain ⟨v, hv, rfl⟩ := List.mem_map.mp ht
          exact ⟨rfl, rfl, rfl, rfl, rfl, rfl⟩
        · rename_i hhit
          simp only [Bool.true_and, Bool.not_eq_true'] at hhit
          have hemp : (tracksAfterSpotify env k catalog).isEmpty = true := by
            cases hx : (tracksAfterSpotify env k catalog).isEmpty
            · exact absurd hx hhit
            · rfl
          rw [List.isEmpty_iff] at hemp
          rw [hemp] at ht
          simp at ht

/-- A catalog row whose features all differ from the `Track` defaults. -/
def rowBright : Row :=
  { spotify_id := "id9", name := "Bright Song", artist := "Some Band",
    language := "en", year := some 2015, genres_parsed := ["rock"],
    valence := some (9/10), energy := some (3/10),
    danceability := some (7/10), acousticness := some (1/10),
    tempo := some 95 }

/-- The rebuilt track the C10 witness run produces: only the six carried
fields survive, the rest are dataclass defaults. -/
def trackBright : Track :=
  { spotify_id := "id9", name := "Bright Song", artist := "Some Band",
    year := some 2015, genres := ["rock"], language := "en" }

/-- An environment for the C10 witness: validation enabled (default), a
one-row catalog with non-default features. -/
def envValidate : Env :=
  { audio := { status := "ok", transcript := some "хочу веселый рок",
               emotion := some "happy", emotion_confidence := some (9/10) }
    clarifyLLM := .ok "vopros"
    analyze := fun _ => { features := { valence := some (9/10) } }
    dataset := .ok [rowBright]
    spotifyAvailable := false
    searchByMood := fun _ _ _ _ => []
    searchTracks := fun _ _ _ => []
    verifyInfo := fun _ => none
    responseLLM := .ok "otvet" }

/-- Witness for C10: the run over `envValidate` succeeds, returns exactly
the rebuilt track, and the theorem instantiated at it shows the reset
defaults even though the catalog row had valence 0.9, energy 0.3, tempo 95. -/
theorem c10_validation_resets_features_witness :
    envValidate.validateTracksFlag = true ∧
    process_audio envValidate 5 = .ok (mainResult envValidate 5 [rowBright]) ∧
    (mainResult envValidate 5 [rowBright]).1.tracks = [trackBright] ∧
    (trackBright.valence = 1/2 ∧ trackBright.energy = 1/2 ∧
      trackBright.danceability = 1/2 ∧ trackBright.acousticness = 1/2 ∧
      trackBright.tempo = 120 ∧ trackBright.distance = 0) :=
  ⟨rfl, by rfl, by decide,
   c10_validation_resets_features envValidate 5
     (mainResult envValidate 5 [rowBright]).1
     (mainResult envValidate 5 [rowBright]).2 rfl (by rfl)
     trackBright (by decide)⟩

end EmotionMusic
